import Mathlib

/-!
Shallow embedding of the Geo-Lift Driver-Incentive experiment core:
the synthetic panel generator (`src/backend/simulation.py`), the
regression DiD estimator (`src/backend/analysis.py`), the HTTP wrapper
(`src/backend/main.py`) and the placebo-validation logic of the
dashboard (`src/frontend/app.py`).

Machine-real values (`float`) are embedded as exact rationals; the
external NumPy Mersenne-Twister Gaussian stream enters the model as an
uninterpreted function from the seed to a draw sequence, and the
external statsmodels OLS solver as an uninterpreted function from the
design rows to the fitted interaction quantities.
-/

namespace GeoLift

/-- Python `int(x)` applied to a real value: truncation toward zero.
Since the denominator of a `Rat` is positive, truncating division of
the numerator by the denominator (`Int.tdiv`, the toward-zero division)
is exactly the Python semantics. -/
def intTrunc (q : ℚ) : ℤ := q.num.tdiv q.den

/-- `pandas` column mean (`Series.mean()`). On an empty column pandas
yields NaN, which this exact-rational model cannot represent; every
theorem that touches a mean therefore restricts itself to nonempty
cells. -/
def qmean (l : List ℚ) : ℚ := l.sum / l.length

/-- One entry of the `self.cities` dict built in `GeoSimulator.__init__`
(`simulation.py`): name, group type, coordinates, baseline supply. -/
structure CityProps where
  name : String
  ctype : String
  lat : ℚ
  lon : ℚ
  base_supply : ℤ
deriving DecidableEq

/-- The fixed 4-market roster from `GeoSimulator.__init__`, in dict
insertion order (the order the generation loop iterates). -/
def cities : List CityProps :=
  [ ⟨"Tallinn", "Treatment", 594370/10000, 247536/10000, 500⟩,
    ⟨"Vilnius", "Treatment", 546872/10000, 252797/10000, 520⟩,
    ⟨"Riga",    "Control",   569496/10000, 241052/10000, 480⟩,
    ⟨"Tartu",   "Control",   583780/10000, 267290/10000, 490⟩ ]

/-- One row of the generated panel (the dict appended to `data` in
`generate_city_data`). `date` is the day index `i` into
`dates = pd.date_range(start=self.start_date, periods=60, freq="D")`;
the underlying timestamps are `start_date + i days`, strictly
increasing in `i`, so every date comparison in the code is faithfully
an index comparison. -/
structure Row where
  date : ℕ
  city : String
  group : String
  lat : ℚ
  lon : ℚ
  supply_hours : ℤ
  period : String
deriving DecidableEq

/-- State of the global NumPy random generator as `simulation.py` uses
it: `np.random.seed s` replaces the whole state, after which the k-th
`np.random.normal(0, 15)` call returns draw number k of the stream
determined by `s`. The map from a seed to its Gaussian draw sequence
(Mersenne-Twister plus normal transform, scale 15) is external to the
repository and enters every definition as the argument `mt`. -/
structure RNGState where
  stream : ℕ → ℚ
  pos : ℕ

/-- `np.random.seed(s)`: discards the prior global state entirely. -/
def npSeed (mt : ℤ → ℕ → ℚ) (s : ℤ) (_prior : RNGState) : RNGState :=
  ⟨mt s, 0⟩

/-- `GeoSimulator` instance state: `__init__` fixes
`start_date = datetime.now() - timedelta(days=60)`. Downstream the
start date is consumed only through `date.weekday()` of each of the 60
generated dates, so the instance is modelled by the weekday of
`start_date` (Python convention: 0 = Monday ... 6 = Sunday). -/
structure GeoSimulator where
  startWeekday : ℕ

/-- Day-of-week factor of `generate_city_data`: `date.weekday()` of day
index `i` is `(startWeekday + i) % 7`; factor 1.30 on Friday (4) and
Saturday (5), 1.10 on Sunday (6), 1.00 on Monday-Thursday. -/
def dow_factor (g : GeoSimulator) (i : ℕ) : ℚ :=
  let day_of_week := (g.startWeekday + i) % 7
  if day_of_week = 4 ∨ day_of_week = 5 then 13/10
  else if day_of_week = 6 then 11/10
  else 1

/-- `cutoff_index = int(len(dates) * 0.66)` with 60 dates. The float64
product is 39.599999999999994 and the exact product is 39.6; both
truncate to 39, so the exact-rational embedding is faithful. -/
def cutoff_index : ℕ := (intTrunc ((60 : ℚ) * (66 / 100))).toNat

/-- Body of the inner per-(city, date) loop of `generate_city_data`.
`ci` is the position of the city in the roster iteration, so
`ci * 60 + i` is the number of `np.random.normal` draws consumed before
this row draws its noise. `date >= experiment_start_date` is the index
comparison `cutoff_index ≤ i` because the date sequence is strictly
increasing and `experiment_start_date = dates[cutoff_index]`. -/
def mkRow (g : GeoSimulator) (noise_at : ℕ → ℚ) (uplift_percent : ℚ)
    (ci : ℕ) (c : CityProps) (i : ℕ) : Row :=
  let is_treatment : Bool := c.ctype == "Treatment"
  let noise : ℚ := noise_at (ci * 60 + i)
  let value : ℚ := (c.base_supply : ℚ) * dow_factor g i + noise
  let is_post : Bool := decide (cutoff_index ≤ i)
  let value2 : ℚ := if is_treatment && is_post then value * (1 + uplift_percent) else value
  { date := i
    city := c.name
    group := c.ctype
    lat := c.lat
    lon := c.lon
    supply_hours := intTrunc value2
    period := if is_post then "Post-Intervention" else "Pre-Intervention" }

/-- `GeoSimulator.generate_city_data`: reseeds the global RNG from
`random_seed` (discarding `rng`), then loops city-major / date-minor
appending one row per (city, date), 4 x 60 rows in roster order.
Returns the panel and the advanced global RNG state. -/
def GeoSimulator.generate_city_data (g : GeoSimulator) (mt : ℤ → ℕ → ℚ)
    (rng : RNGState) (uplift_percent : ℚ := 15/100) (random_seed : ℤ := 42) :
    List Row × RNGState :=
  let rng1 := npSeed mt random_seed rng
  let data := cities.enum.flatMap fun p =>
    (List.range 60).map fun i => mkRow g rng1.stream uplift_percent p.1 p.2 i
  (data, ⟨rng1.stream, cities.length * 60⟩)

/-- The loop index space of `generate_city_data`: (city position, city,
day index), city-major / date-minor, exactly as iterated. -/
def indexTriples : List (ℕ × CityProps × ℕ) :=
  cities.enum.flatMap fun p => (List.range 60).map fun i => (p.1, p.2, i)

/-! ## The estimator (`src/backend/analysis.py`) -/

/-- The Python exception channel of the analysis path. The repository
code itself never defines an exception class: the statsmodels solver
raises its own generic errors, modelled as `SolverError` with the
solver message. `RegressionFailure` is the distinct estimator-owned
failure type that the specification postulates; it is present in the
model so that statements about it can be settled against the code. -/
inductive PyExc where
  | RegressionFailure (msg : String)
  | SolverError (msg : String)
deriving DecidableEq

/-- One row of the dataframe after step 2 of `calculate_did`: the
original row plus the two dummy columns `is_treatment` and `is_post`
(0/1 integers, as `astype(int)` produces). -/
structure RegRow where
  row : Row
  is_treatment : ℤ
  is_post : ℤ
deriving DecidableEq

/-- Abstract result of
`smf.ols("supply_hours ~ is_treatment * is_post", data=df).fit()`:
the formula expands to intercept + `is_treatment` + `is_post` +
`is_treatment:is_post`, and `calculate_did` reads off the
interaction-term coefficient (the DiD estimator), its two-sided
p-value, the two bounds of its 95% confidence interval, and the text
summary. The fitting algorithm itself lives in statsmodels, outside
the repository, so it enters the model as a function argument of type
`OLSSolver` below; a failure of the solver is an `error` value. -/
structure OLSInteractionFit where
  did_coef : ℚ
  p_value : ℚ
  ci_lower : ℚ
  ci_upper : ℚ
  model_summary : String
deriving DecidableEq

/-- The external OLS fitting routine: design rows in, fitted
interaction quantities (or a raised solver error) out. -/
abbrev OLSSolver := List RegRow → Except PyExc OLSInteractionFit

/-- The result dict built at the end of `calculate_did`. -/
structure DiDResults where
  did_absolute_impact : ℚ
  lift_percent : ℚ
  p_value : ℚ
  is_significant : Bool
  conf_int_lower : ℚ
  conf_int_upper : ℚ
  model_summary : String
deriving DecidableEq

/-- Step 1 of `calculate_did`:
`df = df[df["group"].isin([treatment_group, control_group])].copy()`. -/
def did_filter (df : List Row) (treatment_group control_group : String) : List Row :=
  df.filter fun r => r.group = treatment_group ∨ r.group = control_group

/-- Steps 1-2 of `calculate_did`: filter to the two named groups and
add the dummy columns
`is_treatment = (group == treatment_group).astype(int)` and
`is_post = (period == "Post-Intervention").astype(int)`. -/
def did_design (df : List Row) (treatment_group control_group : String) : List RegRow :=
  (did_filter df treatment_group control_group).map fun r =>
    { row := r
      is_treatment := if r.group = treatment_group then 1 else 0
      is_post := if r.period = "Post-Intervention" then 1 else 0 }

/-- The mean used in step 5 of `calculate_did`:
`df[(df["is_treatment"]==1) & (df["is_post"]==1)]["supply_hours"].mean()`. -/
def t_post_avg_of (design : List RegRow) : ℚ :=
  qmean ((design.filter fun r => r.is_treatment = 1 ∧ r.is_post = 1).map
    fun r => (r.row.supply_hours : ℚ))

/-- `calculate_did` (`analysis.py`): filter to the two groups, encode
the dummy columns, run the OLS regression, extract the interaction
term, and compute the counterfactual-relative lift guarded against a
zero denominator. A solver exception propagates out unchanged (the
function body has no try/except). -/
def calculate_did (ols : OLSSolver) (df : List Row)
    (treatment_group : String := "Treatment")
    (control_group : String := "Control") : Except PyExc DiDResults :=
  let design := did_design df treatment_group control_group
  match ols design with
  | .error e => .error e
  | .ok fit =>
    let did_estimator := fit.did_coef
    let p_value := fit.p_value
    let t_post_avg := t_post_avg_of design
    let counterfactual := t_post_avg - did_estimator
    let lift_percent := if counterfactual ≠ 0 then did_estimator / counterfactual else 0
    .ok { did_absolute_impact := did_estimator
          lift_percent := lift_percent
          p_value := p_value
          is_significant := decide (p_value < 1/20)
          conf_int_lower := fit.ci_lower
          conf_int_upper := fit.ci_upper
          model_summary := fit.model_summary }

/-! ## Descriptive mode (spec §4.2, Mode A) -/

/-- Output record of the descriptive estimator (spec §4.2 Mode A):
effect, lift, and the four cell means. -/
structure DescriptiveResults where
  effect : ℚ
  lift : ℚ
  treatment_pre : ℚ
  treatment_post : ℚ
  control_pre : ℚ
  control_post : ℚ
deriving DecidableEq

/-- Modelled from the spec: the (group x period) cell mean of Mode A,
where "a missing cell (no rows for that combination) defaults to
`0.0` rather than failing" (spec §4.2). The descriptive estimator is
not present under `src/` (only the regression path `calculate_did`
is), so this definition follows the words of spec §4.2. -/
def cell_mean (df : List Row) (grp per : String) : ℚ :=
  let cell := df.filter fun r => r.group = grp ∧ r.period = per
  if cell.isEmpty then 0
  else qmean (cell.map fun r => (r.supply_hours : ℚ))

/-- Modelled from the spec: Mode A, the descriptive DiD estimator of
spec §4.2, absent from `src/`. Filter to the two named groups, take
the four cell means (missing cells default to 0.0),
`effect = (treatment_post - treatment_pre) - (control_post - control_pre)`,
`lift = effect / treatment_pre` defined as `0.0` when
`treatment_pre == 0`. Total: no operation can raise. -/
def calculate_did_descriptive (df : List Row)
    (treatment_group control_group : String) : DescriptiveResults :=
  let df1 := did_filter df treatment_group control_group
  let t_pre := cell_mean df1 treatment_group "Pre-Intervention"
  let t_post := cell_mean df1 treatment_group "Post-Intervention"
  let c_pre := cell_mean df1 control_group "Pre-Intervention"
  let c_post := cell_mean df1 control_group "Post-Intervention"
  let effect := (t_post - t_pre) - (c_post - c_pre)
  let lift := if t_pre = 0 then 0 else effect / t_pre
  ⟨effect, lift, t_pre, t_post, c_pre, c_post⟩

/-! ## The HTTP wrapper (`src/backend/main.py`) -/

/-- Shape of the response of the `/run-geo-experiment` endpoint: either
the payload or an HTTPException with a status code and a detail
message. Date re-formatting and NaN sanitation of the payload are
transport concerns outside the rational model. -/
inductive APIResponse where
  | ok (results : DiDResults) (raw_data : List Row)
  | httpError (status_code : ℕ) (detail : String)
deriving DecidableEq

/-- `str(e)` of a raised analysis exception: the carried message. -/
def excMessage : PyExc → String
  | .RegressionFailure m => m
  | .SolverError m => m

/-- `run_geo_experiment` (`main.py`): simulate with the fixed seed 42,
analyze with `calculate_did`, and map any analysis exception to an
HTTP 500 whose detail is "Regression Analysis Failed: " plus the
exception message (the inner try/except of the endpoint). -/
def run_geo_experiment (g : GeoSimulator) (mt : ℤ → ℕ → ℚ) (rng : RNGState)
    (ols : OLSSolver) (uplift : ℚ := 15/100) : APIResponse :=
  let df := (g.generate_city_data mt rng uplift 42).1
  match calculate_did ols df with
  | .error e => .httpError 500 ("Regression Analysis Failed: " ++ excMessage e)
  | .ok results => .ok results df

/-! ## The placebo procedure (`src/frontend/app.py`, tab 2) -/

/-- Steps 1-2 of the placebo tab of `app.py`: keep only the two
control cities and relabel Riga as the fake treatment group, Tartu as
the control group. -/
def placebo_relabel (full_df : List Row) : List Row :=
  (full_df.filter fun r => r.city = "Riga" ∨ r.city = "Tartu").map fun r =>
    { r with group := if r.city = "Riga" then "Fake Treatment (Riga)" else "Control (Tartu)" }

/-- The three booleans computed in the placebo tab of `app.py`. -/
structure PlaceboChecks where
  is_magnitude_small : Bool
  is_not_significant : Bool
  placebo_passed : Bool
deriving DecidableEq

/-- The pass/fail logic of the placebo tab:
`is_magnitude_small = abs(lift_percent) < 0.05`;
`is_not_significant` defaults to `True` and becomes
`p_value > 0.05` when the result carries a `p_value` key (the key
argument is an `Option` to model the membership test
`if "p_value" in placebo_res`); `placebo_passed` is their
conjunction. -/
def placebo_checks (lift_percent : ℚ) (p_value : Option ℚ) : PlaceboChecks :=
  let is_magnitude_small := decide (|lift_percent| < 1/20)
  let is_not_significant := match p_value with
    | none => true
    | some p => decide (p > 1/20)
  ⟨is_magnitude_small, is_not_significant, is_magnitude_small && is_not_significant⟩

/-- The whole placebo procedure of tab 2: relabel the control-only
panel, re-run `calculate_did` with the fake group names, and attach
the three check booleans (`calculate_did` always returns a `p_value`
entry, so the checks receive `some`). -/
def placebo_run (ols : OLSSolver) (full_df : List Row) :
    Except PyExc (DiDResults × PlaceboChecks) :=
  match calculate_did ols (placebo_relabel full_df)
      "Fake Treatment (Riga)" "Control (Tartu)" with
  | .error e => .error e
  | .ok res => .ok (res, placebo_checks res.lift_percent (some res.p_value))

/-! ## Concrete fixtures used by witness and counterexample theorems -/

/-- A concrete simulator instance: start date falling on a Monday. -/
def witG : GeoSimulator := ⟨0⟩

/-- A concrete stand-in for the seeded Gaussian stream: all draws 0
(the mean of the modelled normal distribution). -/
def witMT : ℤ → ℕ → ℚ := fun _ _ => 0

/-- A concrete prior global RNG state. -/
def witRNG : RNGState := ⟨fun _ => 0, 0⟩

/-- The first roster entry, for witness instantiations. -/
def witCity : CityProps := ⟨"Tallinn", "Treatment", 594370/10000, 247536/10000, 500⟩

/-- A concrete solver result, for witness instantiations. -/
def witFit : OLSInteractionFit := ⟨7, 1/50, 2, 12, "summary"⟩

/-- A solver that always succeeds with `witFit`. -/
def witOls : OLSSolver := fun _ => .ok witFit

/-- A solver that always raises the generic statsmodels error, as a
rank-deficient design makes the real solver do. -/
def C7_ols_failing : OLSSolver := fun _ => .error (.SolverError "Singular matrix")

/-- A one-row panel whose treatment group has an all-zero pre-period. -/
def witDf8 : List Row := [⟨0, "A", "T", 0, 0, 0, "Pre-Intervention"⟩]

/-! ## Helper lemmas -/

theorem cutoff_index_eq : cutoff_index = 39 := by
  have h : (60 : ℚ) * (66 / 100) = Rat.divInt 198 5 := by
    rw [Rat.divInt_eq_div]; norm_num
  simp only [cutoff_index, h]
  decide

theorem intTrunc_intCast (n : ℤ) : intTrunc (n : ℚ) = n := by
  simp [intTrunc, Rat.num_intCast, Rat.den_intCast]

theorem intTrunc_nonneg {q : ℚ} (h : 0 ≤ q) : 0 ≤ intTrunc q :=
  Int.tdiv_nonneg (Rat.num_nonneg.mpr h) (by positivity)

theorem dow_factor_nonneg (g : GeoSimulator) (i : ℕ) : 0 ≤ dow_factor g i := by
  simp only [dow_factor]
  split
  · norm_num
  · split <;> norm_num

theorem mkRow_date (g : GeoSimulator) (st : ℕ → ℚ) (u : ℚ) (ci : ℕ)
    (c : CityProps) (i : ℕ) : (mkRow g st u ci c i).date = i := rfl

theorem mkRow_city (g : GeoSimulator) (st : ℕ → ℚ) (u : ℚ) (ci : ℕ)
    (c : CityProps) (i : ℕ) : (mkRow g st u ci c i).city = c.name := rfl

theorem mkRow_group (g : GeoSimulator) (st : ℕ → ℚ) (u : ℚ) (ci : ℕ)
    (c : CityProps) (i : ℕ) : (mkRow g st u ci c i).group = c.ctype := rfl

theorem mkRow_period (g : GeoSimulator) (st : ℕ → ℚ) (u : ℚ) (ci : ℕ)
    (c : CityProps) (i : ℕ) :
    (mkRow g st u ci c i).period
      = if cutoff_index ≤ i then "Post-Intervention" else "Pre-Intervention" := by
  simp [mkRow]

theorem mkRow_supply (g : GeoSimulator) (st : ℕ → ℚ) (u : ℚ) (ci : ℕ)
    (c : CityProps) (i : ℕ) :
    (mkRow g st u ci c i).supply_hours
      = intTrunc (if c.ctype = "Treatment" ∧ cutoff_index ≤ i
          then ((c.base_supply : ℚ) * dow_factor g i + st (ci * 60 + i)) * (1 + u)
          else (c.base_supply : ℚ) * dow_factor g i + st (ci * 60 + i)) := by
  simp only [mkRow]
  by_cases h : c.ctype = "Treatment" ∧ cutoff_index ≤ i
  · rw [if_pos h]
    have hb : ((c.ctype == "Treatment") && decide (cutoff_index ≤ i)) = true := by
      simp [h.1, h.2]
    rw [hb]
    simp
  · rw [if_neg h]
    have hb : ((c.ctype == "Treatment") && decide (cutoff_index ≤ i)) = false := by
      rcases not_and_or.mp h with h1 | h2
      · simp [h1]
      · simp [h2]
    rw [hb]
    simp

theorem generate_eq_map (g : GeoSimulator) (mt : ℤ → ℕ → ℚ) (rng : RNGState)
    (u : ℚ) (s : ℤ) :
    (g.generate_city_data mt rng u s).1
      = indexTriples.map fun t => mkRow g (mt s) u t.1 t.2.1 t.2.2 := by
  simp only [GeoSimulator.generate_city_data, npSeed, indexTriples,
    List.map_flatMap, List.map_map]
  rfl

theorem mem_generate {g : GeoSimulator} {mt : ℤ → ℕ → ℚ} {rng : RNGState}
    {u : ℚ} {s : ℤ} {r : Row} :
    r ∈ (g.generate_city_data mt rng u s).1
      ↔ ∃ t ∈ indexTriples, r = mkRow g (mt s) u t.1 t.2.1 t.2.2 := by
  rw [generate_eq_map, List.mem_map]
  constructor
  · rintro ⟨t, ht, rfl⟩; exact ⟨t, ht, rfl⟩
  · rintro ⟨t, ht, rfl⟩; exact ⟨t, ht, rfl⟩

theorem mem_indexTriples {t : ℕ × CityProps × ℕ} :
    t ∈ indexTriples ↔ (t.1, t.2.1) ∈ cities.enum ∧ t.2.2 < 60 := by
  simp only [indexTriples, List.mem_flatMap, List.mem_map, List.mem_range]
  constructor
  · rintro ⟨p, hp, i, hi, rfl⟩; exact ⟨hp, hi⟩
  · rintro ⟨hp, hi⟩; exact ⟨(t.1, t.2.1), hp, t.2.2, hi, rfl⟩

/-! ## Claim theorems -/

/-- C1: In regression mode, for every panel containing the two named
groups, the estimator filters the panel to those two groups, derives
the binary treatment-group and post-period indicators (together the
`did_design`), fits the OLS model of the response on intercept,
treatment indicator, post indicator and their interaction (the
external solver applied to that design), and returns the interaction
coefficient as the absolute impact together with its two-sided p-value
and its 95% confidence interval bounds. -/
theorem C1_regression_extracts_interaction (ols : OLSSolver) (df : List Row)
    (tg cg : String) (fit : OLSInteractionFit)
    (hfit : ols (did_design df tg cg) = .ok fit) :
    ∃ res : DiDResults,
      calculate_did ols df tg cg = .ok res
      ∧ res.did_absolute_impact = fit.did_coef
      ∧ res.p_value = fit.p_value
      ∧ res.conf_int_lower = fit.ci_lower
      ∧ res.conf_int_upper = fit.ci_upper := by
  simp only [calculate_did]
  rw [hfit]
  exact ⟨_, rfl, rfl, rfl, rfl, rfl⟩

/-- C1 witness: the pipeline at a concrete solver and panel. -/
theorem C1_witness :
    ∃ res : DiDResults,
      calculate_did witOls [] "Treatment" "Control" = .ok res
      ∧ res.did_absolute_impact = witFit.did_coef
      ∧ res.p_value = witFit.p_value
      ∧ res.conf_int_lower = witFit.ci_lower
      ∧ res.conf_int_upper = witFit.ci_upper :=
  C1_regression_extracts_interaction witOls [] "Treatment" "Control" witFit rfl

/-- C2: for every pair (uplift_fraction, random_seed), two calls to
`generate_city_data` on the same generator instance with identical
arguments produce identical output sequences — same rows, same order,
same values in every field. The only mutable state a call touches is
the global RNG, and `np.random.seed` overwrites it before any draw, so
the panel does not depend on the incoming RNG state. -/
theorem C2_generate_deterministic (g : GeoSimulator) (mt : ℤ → ℕ → ℚ)
    (rng₁ rng₂ : RNGState) (u : ℚ) (s : ℤ) :
    (g.generate_city_data mt rng₁ u s).1 = (g.generate_city_data mt rng₂ u s).1 := rfl

set_option maxRecDepth 4000 in
/-- C3: for every uplift_fraction and seed, `generate_city_data`
returns exactly `markets × 60` observations (240 with the fixed
4-market roster), one per (market, day) with market-day pairs unique,
and each observation's period label is "Post-Intervention" exactly
when its date index is at or after the shared cutoff index
`int(0.66 * 60) = 39`, "Pre-Intervention" otherwise. -/
theorem C3_row_count_and_period_partition (g : GeoSimulator) (mt : ℤ → ℕ → ℚ)
    (rng : RNGState) (u : ℚ) (s : ℤ) :
    ((g.generate_city_data mt rng u s).1.length = cities.length * 60
        ∧ cities.length * 60 = 240)
    ∧ cutoff_index = 39
    ∧ ((g.generate_city_data mt rng u s).1.map fun r => (r.city, r.date)).Nodup
    ∧ ∀ r ∈ (g.generate_city_data mt rng u s).1,
        (cutoff_index ≤ r.date → r.period = "Post-Intervention")
        ∧ (r.date < cutoff_index → r.period = "Pre-Intervention") := by
  refine ⟨⟨?_, rfl⟩, cutoff_index_eq, ?_, ?_⟩
  · rw [generate_eq_map, List.length_map]
    decide
  · rw [generate_eq_map, List.map_map]
    have hmap : (indexTriples.map
          ((fun r => (r.city, r.date)) ∘ fun t => mkRow g (mt s) u t.1 t.2.1 t.2.2))
        = indexTriples.map (fun t => (t.2.1.name, t.2.2)) :=
      List.map_congr_left fun t _ => rfl
    rw [hmap]
    decide
  · intro r hr
    obtain ⟨t, -, rfl⟩ := mem_generate.mp hr
    rw [mkRow_period, mkRow_date]
    constructor
    · intro h; rw [if_pos h]
    · intro h; rw [if_neg (Nat.not_le.mpr h)]

/-- C3 witness: the shape facts at a concrete instance, and the period
label of a concrete early row. -/
theorem C3_witness :
    ((witG.generate_city_data witMT witRNG 0 42).1.length = cities.length * 60
        ∧ cities.length * 60 = 240)
    ∧ cutoff_index = 39
    ∧ ((witG.generate_city_data witMT witRNG 0 42).1.map fun r => (r.city, r.date)).Nodup
    ∧ (mkRow witG (witMT 42) 0 0 witCity 0).period = "Pre-Intervention" := by
  have h := C3_row_count_and_period_partition witG witMT witRNG 0 42
  have hmem : mkRow witG (witMT 42) 0 0 witCity 0
      ∈ (witG.generate_city_data witMT witRNG 0 42).1 :=
    mem_generate.mpr ⟨(0, witCity, 0),
      mem_indexTriples.mpr ⟨List.mem_cons_self _ _, by norm_num⟩, rfl⟩
  refine ⟨h.1, h.2.1, h.2.2.1, ?_⟩
  exact (h.2.2.2 _ hmem).2 (by rw [mkRow_date, cutoff_index_eq]; norm_num)

/-- The response formula exactly as claim C4 words it: the integer
truncation (toward zero) of
`(baseline(m) * dow_factor(d) + noise(m, d)) * (1 + uplift_fraction
if m is a treatment market and d is in the post period, else 1)`,
where the day-of-week factor is 1.30 on Friday and Saturday, 1.10 on
Sunday and 1.00 otherwise, and `noise(m, d)` is the Gaussian draw for
that (market, date) from the seeded stream — draw number
`ci * 60 + i` for the market at roster position `ci` on day `i`. -/
def C4_claim_response (g : GeoSimulator) (mt : ℤ → ℕ → ℚ) (s : ℤ) (u : ℚ)
    (ci : ℕ) (c : CityProps) (i : ℕ) : ℤ :=
  let w := (g.startWeekday + i) % 7
  let dow : ℚ := if w = 4 ∨ w = 5 then 13/10 else if w = 6 then 11/10 else 1
  let noise := mt s (ci * 60 + i)
  let uplift_mult : ℚ := if c.ctype = "Treatment" ∧ cutoff_index ≤ i then 1 + u else 1
  intTrunc (((c.base_supply : ℚ) * dow + noise) * uplift_mult)

/-- C4: for every market and date in the generated panel, the stored
response equals the claim formula `C4_claim_response` at that
market's roster position and that day index. -/
theorem C4_response_formula (g : GeoSimulator) (mt : ℤ → ℕ → ℚ) (rng : RNGState)
    (u : ℚ) (s : ℤ) :
    ∀ r ∈ (g.generate_city_data mt rng u s).1,
      ∃ ci c, (ci, c) ∈ cities.enum ∧ r.city = c.name
        ∧ r.supply_hours = C4_claim_response g mt s u ci c r.date := by
  intro r hr
  obtain ⟨t, ht, rfl⟩ := mem_generate.mp hr
  refine ⟨t.1, t.2.1, (mem_indexTriples.mp ht).1, mkRow_city .., ?_⟩
  rw [mkRow_supply, mkRow_date]
  show _ = C4_claim_response g mt s u t.1 t.2.1 t.2.2
  simp only [C4_claim_response, dow_factor]
  by_cases h : t.2.1.ctype = "Treatment" ∧ cutoff_index ≤ t.2.2
  · rw [if_pos h, if_pos h]
  · rw [if_neg h, if_neg h, mul_one]

/-- C4 witness: the formula correspondence at a concrete panel row. -/
theorem C4_witness :
    ∃ ci c, (ci, c) ∈ cities.enum
      ∧ (mkRow witG (witMT 42) 0 0 witCity 0).city = c.name
      ∧ (mkRow witG (witMT 42) 0 0 witCity 0).supply_hours
          = C4_claim_response witG witMT 42 0 ci c (mkRow witG (witMT 42) 0 0 witCity 0).date :=
  C4_response_formula witG witMT witRNG 0 42 _
    (mem_generate.mpr ⟨(0, witCity, 0),
      mem_indexTriples.mpr ⟨List.mem_cons_self _ _, by norm_num⟩, rfl⟩)

/-- C5: in regression mode, the returned relative lift equals the
effect divided by the counterfactual baseline, where the
counterfactual is the post-period treatment-group mean minus the
effect; when that counterfactual is exactly zero the lift is 0.0 and
nothing is raised (an `ok` result is still produced). The nonempty
treatment-post cell hypothesis keeps the rational cell mean faithful
to the pandas mean. -/
theorem C5_regression_lift_vs_counterfactual (ols : OLSSolver) (df : List Row)
    (tg cg : String) (fit : OLSInteractionFit)
    (hfit : ols (did_design df tg cg) = .ok fit)
    (_hcell : ((did_design df tg cg).filter
        fun r => r.is_treatment = 1 ∧ r.is_post = 1) ≠ []) :
    ∃ res : DiDResults,
      calculate_did ols df tg cg = .ok res
      ∧ (t_post_avg_of (did_design df tg cg) - fit.did_coef = 0 →
            res.lift_percent = 0)
      ∧ (t_post_avg_of (did_design df tg cg) - fit.did_coef ≠ 0 →
            res.lift_percent
              = fit.did_coef / (t_post_avg_of (did_design df tg cg) - fit.did_coef)) := by
  simp only [calculate_did]
  rw [hfit]
  refine ⟨_, rfl, ?_, ?_⟩
  · intro h
    simp only [h, ne_eq, not_true_eq_false, if_false]
  · intro h
    simp only [ne_eq, h, not_false_eq_true, if_true]

/-- C5 witness: the zero-counterfactual guard and the generic quotient
at a concrete panel. The solver reports `did_coef = 7`; the single
treatment-post row has response 7, so the counterfactual is 0 and the
returned lift is 0. -/
theorem C5_witness :
    ∃ res : DiDResults,
      calculate_did witOls [⟨39, "Tallinn", "Treatment", 0, 0, 7, "Post-Intervention"⟩]
          "Treatment" "Control" = .ok res
      ∧ (t_post_avg_of (did_design [⟨39, "Tallinn", "Treatment", 0, 0, 7, "Post-Intervention"⟩]
            "Treatment" "Control") - witFit.did_coef = 0 → res.lift_percent = 0)
      ∧ (t_post_avg_of (did_design [⟨39, "Tallinn", "Treatment", 0, 0, 7, "Post-Intervention"⟩]
            "Treatment" "Control") - witFit.did_coef ≠ 0 →
            res.lift_percent = witFit.did_coef
              / (t_post_avg_of (did_design [⟨39, "Tallinn", "Treatment", 0, 0, 7, "Post-Intervention"⟩]
                  "Treatment" "Control") - witFit.did_coef)) :=
  C5_regression_lift_vs_counterfactual witOls
    [⟨39, "Tallinn", "Treatment", 0, 0, 7, "Post-Intervention"⟩]
    "Treatment" "Control" witFit rfl (by
      simp [did_design, did_filter, List.filter])

/-- C10: for every seed and every two uplift fractions, the two panels
generated on the same generator instance have the same length and
agree exactly at every position holding a control-market row or a
treatment-market row dated before the cutoff: only treatment-market
post-period responses depend on the uplift fraction. -/
theorem C10_only_treatment_post_depends_on_uplift (g : GeoSimulator)
    (mt : ℤ → ℕ → ℚ) (rng₁ rng₂ : RNGState) (u₁ u₂ : ℚ) (s : ℤ) :
    (g.generate_city_data mt rng₁ u₁ s).1.length
        = (g.generate_city_data mt rng₂ u₂ s).1.length
    ∧ ∀ p ∈ (g.generate_city_data mt rng₁ u₁ s).1.zip
          (g.generate_city_data mt rng₂ u₂ s).1,
        (p.1.group = "Control" ∨ p.1.date < cutoff_index) → p.1 = p.2 := by
  constructor
  · rw [generate_eq_map, generate_eq_map, List.length_map, List.length_map]
  · intro p hp hcond
    rw [generate_eq_map, generate_eq_map, List.zip_map'] at hp
    obtain ⟨t, -, rfl⟩ := List.mem_map.mp hp
    show mkRow g (mt s) u₁ t.1 t.2.1 t.2.2 = mkRow g (mt s) u₂ t.1 t.2.1 t.2.2
    have hb : ((t.2.1.ctype == "Treatment") && decide (cutoff_index ≤ t.2.2)) = false := by
      rcases hcond with h | h
      · rw [mkRow_group] at h
        rw [h]
        rw [show (("Control" == "Treatment") : Bool) = false from by decide]
        exact Bool.false_and _
      · rw [mkRow_date] at h
        rw [decide_eq_false (Nat.not_le.mpr h)]
        exact Bool.and_false _
    simp only [mkRow, hb, Bool.false_eq_true, if_false]

/-- C10 witness: agreement of an uplift-0 panel and an uplift-1 panel
at a concrete pre-cutoff position. -/
theorem C10_witness :
    (witG.generate_city_data witMT witRNG 0 42).1.length
        = (witG.generate_city_data witMT witRNG 1 42).1.length
    ∧ mkRow witG (witMT 42) 0 0 witCity 0 = mkRow witG (witMT 42) 1 0 witCity 0 := by
  have h := C10_only_treatment_post_depends_on_uplift witG witMT witRNG witRNG 0 1 42
  refine ⟨h.1, ?_⟩
  have hmem : (mkRow witG (witMT 42) 0 0 witCity 0, mkRow witG (witMT 42) 1 0 witCity 0)
      ∈ (witG.generate_city_data witMT witRNG 0 42).1.zip
        (witG.generate_city_data witMT witRNG 1 42).1 := by
    rw [generate_eq_map, generate_eq_map, List.zip_map']
    exact List.mem_map.mpr ⟨(0, witCity, 0),
      mem_indexTriples.mpr ⟨List.mem_cons_self _ _, by norm_num⟩, rfl⟩
  exact h.2 _ hmem (Or.inr (by rw [mkRow_date, cutoff_index_eq]; norm_num))

/-- C6: the placebo procedure re-runs the regression estimator on the
control-only panel with Riga relabeled as the fake treatment group,
and its verdict is exactly the conjunction of the magnitude check
`|lift| < 0.05` and the significance check, which an absent (undefined)
p-value satisfies and a present one satisfies exactly when
`p_value > 0.05`; the two constituent checks are exposed alongside the
combined boolean. -/
theorem C6_placebo_conjunction :
    (∀ (ols : OLSSolver) (full_df : List Row) (res : DiDResults),
        calculate_did ols (placebo_relabel full_df)
            "Fake Treatment (Riga)" "Control (Tartu)" = .ok res →
        placebo_run ols full_df
          = .ok (res, placebo_checks res.lift_percent (some res.p_value)))
    ∧ (∀ (lift_percent : ℚ) (p : Option ℚ),
        (placebo_checks lift_percent p).placebo_passed
          = ((placebo_checks lift_percent p).is_magnitude_small
              && (placebo_checks lift_percent p).is_not_significant))
    ∧ (∀ (lift_percent : ℚ) (p : Option ℚ),
        ((placebo_checks lift_percent p).is_magnitude_small = true
          ↔ |lift_percent| < 1/20))
    ∧ (∀ lift_percent : ℚ,
        (placebo_checks lift_percent none).is_not_significant = true)
    ∧ (∀ lift_percent p : ℚ,
        ((placebo_checks lift_percent (some p)).is_not_significant = true
          ↔ p > 1/20)) := by
  refine ⟨?_, ?_, ?_, ?_, ?_⟩
  · intro ols full_df res h
    simp only [placebo_run]
    rw [h]
  · intro lift_percent p
    rfl
  · intro lift_percent p
    simp [placebo_checks]
  · intro lift_percent
    rfl
  · intro lift_percent p
    simp [placebo_checks]

/-- C6 witness: the placebo pipeline at a concrete solver and panel,
together with the check characterizations at the concrete
lift 0 and p-value 1/50. -/
theorem C6_witness :
    (∃ res : DiDResults,
      calculate_did witOls (placebo_relabel [])
          "Fake Treatment (Riga)" "Control (Tartu)" = .ok res
      ∧ placebo_run witOls []
          = .ok (res, placebo_checks res.lift_percent (some res.p_value)))
    ∧ (placebo_checks 0 (some (1/50))).placebo_passed
        = ((placebo_checks 0 (some (1/50))).is_magnitude_small
            && (placebo_checks 0 (some (1/50))).is_not_significant)
    ∧ ((placebo_checks 0 (some (1/50))).is_magnitude_small = true ↔ |(0 : ℚ)| < 1/20)
    ∧ (placebo_checks 0 none).is_not_significant = true
    ∧ ((placebo_checks 0 (some (1/50))).is_not_significant = true ↔ (1/50 : ℚ) > 1/20) :=
  ⟨⟨_, rfl, (C6_placebo_conjunction).1 witOls [] _ rfl⟩,
    (C6_placebo_conjunction).2.1 0 (some (1/50)),
    (C6_placebo_conjunction).2.2.1 0 (some (1/50)),
    (C6_placebo_conjunction).2.2.2.1 0,
    (C6_placebo_conjunction).2.2.2.2 0 (1/50)⟩

/-- C7 counterexample: the claim postulates that a solver failure
surfaces as a distinct catchable `RegressionFailure` carrying the
solver message. The estimator defines no such type: `calculate_did`
has no try/except, so at a concrete solver that raises the generic
"Singular matrix" error, the propagated exception is exactly the
generic solver error and not a `RegressionFailure` with that
message. -/
theorem C7_counterexample :
    calculate_did C7_ols_failing [] "Treatment" "Control"
        = .error (.SolverError "Singular matrix")
    ∧ calculate_did C7_ols_failing [] "Treatment" "Control"
        ≠ .error (.RegressionFailure "Singular matrix") := by
  refine ⟨rfl, ?_⟩
  intro h
  rw [show calculate_did C7_ols_failing [] "Treatment" "Control"
      = .error (.SolverError "Singular matrix") from rfl] at h
  simp at h

/-- C7 amended: the estimator wraps nothing — a regression-solver
failure propagates out of `calculate_did` unchanged, as the underlying
generic exception with its message, and it can arise only from the
solver call; the HTTP boundary (`run_geo_experiment`) then catches any
analysis exception and maps it to a 500 response whose detail carries
the solver message after the prefix "Regression Analysis Failed: ". -/
theorem C7_amended_error_propagation (ols : OLSSolver) (df : List Row)
    (tg cg : String) (e : PyExc)
    (h : ols (did_design df tg cg) = .error e) :
    calculate_did ols df tg cg = .error e
    ∧ ∀ (g : GeoSimulator) (mt : ℤ → ℕ → ℚ) (rng : RNGState) (u : ℚ),
        calculate_did ols (g.generate_city_data mt rng u 42).1 = .error e →
        run_geo_experiment g mt rng ols u
          = .httpError 500 ("Regression Analysis Failed: " ++ excMessage e) := by
  constructor
  · simp only [calculate_did]
    rw [h]
  · intro g mt rng u h2
    simp only [run_geo_experiment]
    rw [h2]

/-- C7 witness: the amended propagation at a concrete failing solver,
panel and endpoint call. -/
theorem C7_witness :
    calculate_did C7_ols_failing [] "Treatment" "Control"
        = .error (.SolverError "Singular matrix")
    ∧ run_geo_experiment witG witMT witRNG C7_ols_failing 0
        = .httpError 500 ("Regression Analysis Failed: "
            ++ excMessage (.SolverError "Singular matrix")) := by
  have h := C7_amended_error_propagation C7_ols_failing [] "Treatment" "Control"
    (.SolverError "Singular matrix") rfl
  exact ⟨h.1, h.2 witG witMT witRNG 0 rfl⟩

/-- C8: in descriptive mode (spec-modelled, absent from `src/`), for
every panel whose treatment-group pre-period mean is 0.0 — including
when that cell is missing, which defaults the mean to 0.0 — the
estimator returns a lift of exactly 0.0 and raises nothing (it is a
total function); otherwise the lift equals effect / treatment_pre. -/
theorem C8_descriptive_division_guard (df : List Row) (tg cg : String) :
    ((calculate_did_descriptive df tg cg).treatment_pre = 0 →
        (calculate_did_descriptive df tg cg).lift = 0)
    ∧ ((calculate_did_descriptive df tg cg).treatment_pre ≠ 0 →
        (calculate_did_descriptive df tg cg).lift
          = (calculate_did_descriptive df tg cg).effect
              / (calculate_did_descriptive df tg cg).treatment_pre)
    ∧ (((did_filter df tg cg).filter
          fun r => r.group = tg ∧ r.period = "Pre-Intervention") = [] →
        (calculate_did_descriptive df tg cg).treatment_pre = 0) := by
  refine ⟨?_, ?_, ?_⟩
  · intro h
    simp only [calculate_did_descriptive] at h ⊢
    rw [if_pos h]
  · intro h
    simp only [calculate_did_descriptive] at h ⊢
    rw [if_neg h]
  · intro h
    simp only [calculate_did_descriptive, cell_mean, h]
    rfl

/-- C8 witness: a concrete one-row panel whose treatment group has an
all-zero pre-period; the returned lift is exactly 0. -/
theorem C8_witness : (calculate_did_descriptive witDf8 "T" "C").lift = 0 :=
  (C8_descriptive_division_guard witDf8 "T" "C").1 (by
    show cell_mean (did_filter witDf8 "T" "C") "T" "Pre-Intervention" = 0
    have hfilter : did_filter witDf8 "T" "C" = witDf8 := rfl
    rw [hfilter]
    have hcell : witDf8.filter
        (fun r => decide (r.group = "T" ∧ r.period = "Pre-Intervention")) = witDf8 := rfl
    simp only [cell_mean, hcell]
    norm_num [witDf8, qmean])

set_option maxRecDepth 4000 in
/-- C9 counterexample: responses are not always non-negative on the
declared input domain. With uplift_fraction = -2 (a valid value: the
spec allows values outside [0, 1]) and the mean-zero noise stream, the
Tallinn row of day 39 (a Friday under a Monday anchor, in the post
period) stores `int((500 * 1.3 + 0) * (1 - 2)) = -650 < 0`; any noise
draw above -649 at that point gives a negative response, so every
realistic seed exhibits this. -/
theorem C9_counterexample :
    ((witG.generate_city_data witMT witRNG (-2) 42).1[39]?).map Row.supply_hours
      = some (-650) ∧ (-650 : ℤ) < 0 := by
  refine ⟨?_, by norm_num⟩
  rw [generate_eq_map, List.getElem?_map,
    show indexTriples[39]? = some (0, witCity, 39) from rfl]
  simp only [Option.map_some']
  congr 1
  rw [mkRow_supply]
  rw [if_pos ⟨rfl, by rw [cutoff_index_eq]⟩]
  have hdow : dow_factor witG 39 = 13/10 := by norm_num [dow_factor, witG]
  have hnoise : witMT 42 (0 * 60 + 39) = 0 := rfl
  rw [hdow, hnoise]
  have hv : ((witCity.base_supply : ℚ) * (13/10) + 0) * (1 + (-2)) = ((-650 : ℤ) : ℚ) := by
    norm_num [witCity]
  rw [hv, intTrunc_intCast]

/-- Every roster baseline is non-negative (helper for the C9 witness). -/
theorem base_supply_nonneg {t : ℕ × CityProps × ℕ} (ht : t ∈ indexTriples) :
    0 ≤ (t.2.1.base_supply : ℚ) := by
  obtain ⟨henum, -⟩ := mem_indexTriples.mp ht
  rw [show cities.enum
      = [((0 : ℕ), (⟨"Tallinn", "Treatment", 594370/10000, 247536/10000, 500⟩ : CityProps)),
         (1, ⟨"Vilnius", "Treatment", 546872/10000, 252797/10000, 520⟩),
         (2, ⟨"Riga", "Control", 569496/10000, 241052/10000, 480⟩),
         (3, ⟨"Tartu", "Control", 583780/10000, 267290/10000, 490⟩)] from rfl] at henum
  simp only [List.mem_cons, List.not_mem_nil, or_false, Prod.mk.injEq] at henum
  rcases henum with ⟨-, h⟩ | ⟨-, h⟩ | ⟨-, h⟩ | ⟨-, h⟩ <;> rw [h] <;> norm_num

/-- C9 amended: the generator guarantees a non-negative stored
response only under the conditions the code actually provides — a
non-negative uplift multiplier `1 + uplift_fraction` and a noise draw
that keeps the raw value `baseline * dow_factor + noise` non-negative
(which the Gaussian gives with overwhelming probability at baselines
near 500 and scale 15, but not always, and not for uplift < -1). -/
theorem C9_amended_nonneg_under_conditions (g : GeoSimulator) (mt : ℤ → ℕ → ℚ)
    (rng : RNGState) (u : ℚ) (s : ℤ)
    (hu : 0 ≤ 1 + u)
    (hnoise : ∀ t ∈ indexTriples,
        0 ≤ (t.2.1.base_supply : ℚ) * dow_factor g t.2.2 + mt s (t.1 * 60 + t.2.2)) :
    ∀ r ∈ (g.generate_city_data mt rng u s).1, 0 ≤ r.supply_hours := by
  intro r hr
  obtain ⟨t, ht, rfl⟩ := mem_generate.mp hr
  rw [mkRow_supply]
  apply intTrunc_nonneg
  have hv := hnoise t ht
  split
  · exact mul_nonneg hv hu
  · exact hv

/-- C9 witness: non-negativity at uplift 0 with the mean-zero noise
stream, evaluated at a concrete row. -/
theorem C9_witness :
    0 ≤ (mkRow witG (witMT 42) 0 0 witCity 0).supply_hours := by
  have hnoise : ∀ t ∈ indexTriples,
      0 ≤ (t.2.1.base_supply : ℚ) * dow_factor witG t.2.2 + witMT 42 (t.1 * 60 + t.2.2) := by
    intro t ht
    have hb := mul_nonneg (base_supply_nonneg ht) (dow_factor_nonneg witG t.2.2)
    simpa [witMT] using hb
  exact C9_amended_nonneg_under_conditions witG witMT witRNG 0 42 (by norm_num) hnoise
    _ (mem_generate.mpr ⟨(0, witCity, 0),
        mem_indexTriples.mpr ⟨List.mem_cons_self _ _, by norm_num⟩, rfl⟩)

end GeoLift
